import Mathlib

/-!
Shallow embedding of the COVID-19 dashboard `DeploymentWebApp.py`:
its data model (two pandas tables loaded from CSV), the aggregation
steps of the EDA page (monthly groupby-sum, nlargest, per-continent
groupby-mean of ratio columns, daily groupby-sum, log10 transforms),
and the sidebar page dispatch.  Pandas float semantics relevant to the
claims (NaN / +inf / -inf produced by division, NaN-skipping sums and
means, NaN-dropping nlargest) are modelled exactly by the `PF` type
over exact rationals; machine floats are idealised as rationals, which
is faithful for the classification (NaN vs infinite vs finite) and for
the small concrete values appearing in the claims.
-/

/-- A pandas float cell: NaN, +infinity, -infinity, or a finite value
(idealised as an exact rational). -/
inductive PF where
  | nan : PF
  | inf : PF
  | ninf : PF
  | fin : ℚ → PF
deriving DecidableEq

/-- One row of `full_grouped.csv` (time series by country).  The date is
kept as (year, month, day) as produced by `pd.to_datetime`; count columns
are `Option Int` (`none` models a missing / NaN cell in the CSV). -/
structure TSRecord where
  country : String
  year : Nat
  month : Nat
  day : Nat
  confirmed : Option Int
  deaths : Option Int
  recovered : Option Int
  newCases : Option Int
  newDeaths : Option Int
  newRecovered : Option Int
deriving DecidableEq

/-- One row of `worldometer_data.csv` (per-country snapshot).  Count
columns are `Option Int` (`none` models a missing / NaN cell). -/
structure WRecord where
  country : String
  continent : String
  totalCases : Option Int
  totalDeaths : Option Int
  totalRecovered : Option Int
  totalTests : Option Int
deriving DecidableEq

/-- The `worldometer_data` dataframe: its rows plus the names of the
derived columns added in place by the EDA page (lines 108, 142, 143, 188).
Per-row values of those derived columns are given by the functions
`cfr`, `recoveryRate` and `log1p10` below. -/
structure WTable where
  rows : List WRecord
  extraCols : List String
deriving DecidableEq

/-- The program state after `load_data` (line 25): the two dataframes
bound to module-level variables. -/
structure AppState where
  full_grouped : List TSRecord
  worldometer_data : WTable
deriving DecidableEq

/-- `load_data` (lines 19-25): reads the two CSVs; parameterised here by
the parsed file contents.  A freshly loaded snapshot table has no derived
columns. -/
def load_data (fg : List TSRecord) (wd : List WRecord) : AppState :=
  { full_grouped := fg, worldometer_data := { rows := wd, extraCols := [] } }

/-- The five pages of the sidebar radio (line 16). -/
inductive Page where
  | overview : Page
  | cleaning : Page
  | eda : Page
  | insights : Page
  | recommendations : Page
deriving DecidableEq

/-- The `if page == ... / elif ...` chain (lines 30-233): returns the
branch taken, or `none` when no branch matches (the chain has no `else`,
so an unknown name silently renders nothing). -/
def pageDispatch (page : String) : Option Page :=
  if page = "📊 Data Overview" then some Page.overview
  else if page = "🧹 Data Cleaning" then some Page.cleaning
  else if page = "📈 EDA & Charts" then some Page.eda
  else if page = "❓ Business Insights" then some Page.insights
  else if page = "✅ Recommendations" then some Page.recommendations
  else none

/-- Modelled from the spec: `renderableFor` as §4.4 words it — an unknown
view name fails with an `UnknownView` error.  This error path is absent
from the source; the definition exists only to be compared with
`pageDispatch`. -/
def renderableForSpec (page : String) : Except String Page :=
  match pageDispatch page with
  | some p => Except.ok p
  | none => Except.error "UnknownView"

/-- Column assignment `worldometer_data[name] = ...`: appends the derived
column name if it is new, otherwise overwrites the values in place (the
set of column names is unchanged). -/
def addCol (t : WTable) (name : String) : WTable :=
  { t with extraCols := if name ∈ t.extraCols then t.extraCols else t.extraCols ++ [name] }

/-- The in-place table updates performed by the EDA page branch, in source
order: line 108 adds `CFR(%)`, lines 138-139 re-assign the existing
`TotalTests` / `TotalCases` columns (numeric coercion, modelled as the
identity on already-numeric rows), lines 142-143 add the two log columns,
line 188 adds `RecoveryRate(%)`.  Line 71 re-assigns the `Date` column of
`full_grouped` (datetime parsing, identity on the already-parsed dates
of this model). -/
def edaTransform (s : AppState) : AppState :=
  { s with worldometer_data :=
      addCol (addCol (addCol (addCol s.worldometer_data "CFR(%)")
        "log_TotalTests") "log_TotalCases") "RecoveryRate(%)" }

/-- Pandas column sum with the default `skipna=True, min_count=0`: a
missing (NaN) cell contributes nothing, an all-missing column sums to 0. -/
def nansum (l : List (Option Int)) : Int :=
  (l.map (fun o => o.getD 0)).sum

/-- `Date.dt.to_period("M")` (line 74): the pandas monthly period ordinal,
months since year 0 — order-isomorphic to (year, month) for the valid
dates produced by `pd.to_datetime`. -/
def periodM (r : TSRecord) : Nat :=
  r.year * 12 + (r.month - 1)

/-- The order key of a `datetime64` day value used as a groupby key
(line 175); order-isomorphic to (year, month, day) for valid dates
(month < 16, day < 32). -/
def dateKey (r : TSRecord) : Nat :=
  r.year * 512 + r.month * 32 + r.day

/-- The sorted, duplicate-free group keys produced by `groupby` with the
default `sort=True`: distinct keys in ascending order. -/
def sortedKeys {α : Type} [LinearOrder α] (l : List α) : List α :=
  List.insertionSort (fun a b => a ≤ b) l.dedup

/-- Line 74: `full_grouped.groupby(Date.dt.to_period("M"))[[Confirmed,
Deaths, Recovered]].sum()` — one output row per month ordinal present,
holding the NaN-skipping sums of the three columns over all rows (all
countries) of that month, in ascending key order. -/
def monthly (t : List TSRecord) : List (Nat × Int × Int × Int) :=
  (sortedKeys (t.map periodM)).map (fun k =>
    (k, nansum ((t.filter (fun r => periodM r = k)).map (fun r => r.confirmed)),
        nansum ((t.filter (fun r => periodM r = k)).map (fun r => r.deaths)),
        nansum ((t.filter (fun r => periodM r = k)).map (fun r => r.recovered))))

/-- Line 175: `full_grouped.groupby("Date")[["New cases", "New deaths"]]
.sum()` — one output row per exact date present, with NaN-skipping sums
over all countries, in ascending date order. -/
def global_time (t : List TSRecord) : List (Nat × Int × Int) :=
  (sortedKeys (t.map dateKey)).map (fun k =>
    (k, nansum ((t.filter (fun r => dateKey r = k)).map (fun r => r.newCases)),
        nansum ((t.filter (fun r => dateKey r = k)).map (fun r => r.newDeaths))))

/-- Pandas element-wise division of two integer columns: any missing
operand gives NaN; a zero denominator gives NaN for numerator 0 and a
signed infinity otherwise; otherwise the exact quotient. -/
def pandasDiv (num den : Option Int) : PF :=
  match num, den with
  | some a, some b =>
      if b = 0 then
        if a = 0 then PF.nan else if 0 < a then PF.inf else PF.ninf
      else PF.fin ((a : ℚ) / (b : ℚ))
  | _, _ => PF.nan

/-- Multiplication of a pandas float column by the scalar 100: NaN and the
infinities are absorbing. -/
def pfScale100 : PF → PF
  | PF.fin q => PF.fin (q * 100)
  | x => x

/-- Line 108: `worldometer_data["CFR(%)"] = (TotalDeaths / TotalCases) * 100`,
per row. -/
def cfr (r : WRecord) : PF :=
  pfScale100 (pandasDiv r.totalDeaths r.totalCases)

/-- Line 188: `worldometer_data["RecoveryRate(%)"] = (TotalRecovered /
TotalCases) * 100`, per row. -/
def recoveryRate (r : WRecord) : PF :=
  pfScale100 (pandasDiv r.totalRecovered r.totalCases)

/-- IEEE summation shape of the non-NaN entries of a column: +inf and
-inf together give NaN, a single-signed infinity propagates, otherwise
the exact finite mean.  `pandasMeanAux` receives the entries that survive
the NaN drop. -/
def pandasMeanAux (v : List PF) : PF :=
  if v = [] then PF.nan
  else if PF.inf ∈ v ∧ PF.ninf ∈ v then PF.nan
  else if PF.inf ∈ v then PF.inf
  else if PF.ninf ∈ v then PF.ninf
  else PF.fin ((v.map (fun x => match x with | PF.fin q => q | _ => 0)).sum / (v.length : ℚ))

/-- Pandas `Series.mean()` with the default `skipna=True`: NaN entries are
dropped, then the mean of the survivors is taken (NaN when none
survive). -/
def pandasMean (l : List PF) : PF :=
  pandasMeanAux (l.filter (fun x => x ≠ PF.nan))

/-- Lexicographic comparison of character lists by code point. -/
def charsLe : List Char → List Char → Bool
  | [], _ => true
  | _ :: _, [] => false
  | a :: as, b :: bs =>
      if a.toNat < b.toNat then true
      else if b.toNat < a.toNat then false
      else charsLe as bs

/-- String comparison by Unicode code points — the order Python and
pandas use when sorting string group keys. -/
def strLe (a b : String) : Bool :=
  charsLe a.data b.data

/-- The sorted, duplicate-free string group keys of a `groupby` on a
string column (default `sort=True`). -/
def sortedStrKeys (l : List String) : List String :=
  List.insertionSort (fun a b => strLe a b = true) l.dedup

/-- `groupby("Continent")[col].mean()` (lines 109, 189 before the final
sort): one row per distinct continent in ascending key order, holding the
pandas mean of the given per-row column over the rows of that continent. -/
def continentMean (t : List WRecord) (f : WRecord → PF) : List (String × PF) :=
  (sortedStrKeys (t.map (fun r => r.continent))).map (fun c =>
    (c, pandasMean ((t.filter (fun r => r.continent = c)).map f)))

/-- The comparison used by `.sort_values(ascending=False)` on a float
column: larger values first, NaN always last. -/
def pfDescLe (x y : PF) : Bool :=
  match x, y with
  | _, PF.nan => true
  | PF.nan, _ => false
  | PF.inf, _ => true
  | _, PF.inf => false
  | _, PF.ninf => true
  | PF.ninf, _ => false
  | PF.fin a, PF.fin b => decide (b ≤ a)

/-- Line 109: `worldometer_data.groupby("Continent")["CFR(%)"].mean()
.sort_values(ascending=False)`. -/
def continent_cfr (t : List WRecord) : List (String × PF) :=
  List.insertionSort (fun a b => pfDescLe a.2 b.2 = true) (continentMean t cfr)

/-- Line 189: the same for `RecoveryRate(%)`. -/
def continent_recovery (t : List WRecord) : List (String × PF) :=
  List.insertionSort (fun a b => pfDescLe a.2 b.2 = true) (continentMean t recoveryRate)

/-- The sort value of an index-carrying row under the requested field,
with `none` never occurring after the NaN-dropping step (`getD 0` is then
immaterial). -/
def fval (f : WRecord → Option Int) (p : Nat × WRecord) : Int :=
  (f p.2).getD 0

/-- The strict-total ranking realised by `nlargest(n, col)` with the
default `keep="first"`: strictly larger field value first, ties broken by
smaller original position. -/
def keyLe (f : WRecord → Option Int) (a b : Nat × WRecord) : Prop :=
  fval f b < fval f a ∨ (fval f a = fval f b ∧ a.1 ≤ b.1)

instance (f : WRecord → Option Int) : DecidableRel (keyLe f) := by
  intro a b
  unfold keyLe
  infer_instance

instance (f : WRecord → Option Int) : IsTotal (Nat × WRecord) (keyLe f) := by
  constructor
  intro a b
  unfold keyLe
  omega

instance (f : WRecord → Option Int) : IsTrans (Nat × WRecord) (keyLe f) := by
  constructor
  intro a b c
  unfold keyLe
  omega

/-- The index-decorated rows that survive the NaN drop of `nlargest`,
ranked by descending field value with stable ties. -/
def rankedRows (t : List WRecord) (f : WRecord → Option Int) : List (Nat × WRecord) :=
  List.insertionSort (keyLe f) (t.enum.filter (fun p => (f p.2).isSome))

/-- `DataFrame.nlargest(n, col)` (lines 92-94): rows whose `col` cell is
missing are dropped, the rest are ordered by descending `col` with ties
kept in original order, and the first `n` are returned. -/
def nlargest (t : List WRecord) (f : WRecord → Option Int) (n : Nat) : List WRecord :=
  ((rankedRows t f).take n).map (fun p => p.2)

/-- Line 92: `worldometer_data.nlargest(10, "TotalCases")` applied to the
loaded table. -/
def top_confirmed (s : AppState) : List WRecord :=
  nlargest s.worldometer_data.rows (fun r => r.totalCases) 10

/-- The scalar map of lines 142-143: `np.log10(v + 1)`, idealised over the
reals. -/
noncomputable def log1p10 (v : ℝ) : ℝ :=
  Real.logb 10 (v + 1)

/-- Lines 142-143: the log-transformed column, one value per row. -/
noncomputable def log_column (vs : List ℝ) : List ℝ :=
  vs.map log1p10

/-- The zero-fill cleaning step of the spec (§4.2 step 4) on the columns
summed by the two groupby aggregations: replace a missing cell by 0. -/
def fillZero (r : TSRecord) : TSRecord :=
  { r with confirmed := some (r.confirmed.getD 0),
           deaths := some (r.deaths.getD 0),
           recovered := some (r.recovered.getD 0),
           newCases := some (r.newCases.getD 0),
           newDeaths := some (r.newDeaths.getD 0) }

/-- The time-series example of spec §8: three countries, each
contributing confirmed = 100 in January 2020. -/
def exJan2020 : List TSRecord :=
  [{ country := "F", year := 2020, month := 1, day := 10, confirmed := some 100,
     deaths := some 0, recovered := some 0, newCases := some 0, newDeaths := some 0,
     newRecovered := some 0 },
   { country := "G", year := 2020, month := 1, day := 15, confirmed := some 100,
     deaths := some 0, recovered := some 0, newCases := some 0, newDeaths := some 0,
     newRecovered := some 0 },
   { country := "H", year := 2020, month := 1, day := 20, confirmed := some 100,
     deaths := some 0, recovered := some 0, newCases := some 0, newDeaths := some 0,
     newRecovered := some 0 }]

/-- The snapshot example of spec §8: continent A with one zero-cases row
(total_deaths = 5) and one row with 100 cases and 10 deaths. -/
def exContinentA : List WRecord :=
  [{ country := "X", continent := "A", totalCases := some 0, totalDeaths := some 5,
     totalRecovered := some 0, totalTests := some 0 },
   { country := "Y", continent := "A", totalCases := some 100, totalDeaths := some 10,
     totalRecovered := some 0, totalTests := some 0 }]

/-- A snapshot row violating the cleaning guarantees: negative
`TotalCases` and missing `TotalDeaths`. -/
def badRow : WRecord :=
  { country := "Bad", continent := "A", totalCases := some (-7), totalDeaths := none,
    totalRecovered := some 0, totalTests := some 0 }

/-- A snapshot row whose `TotalCases` cell is missing. -/
def wMissing : WRecord :=
  { country := "N", continent := "A", totalCases := none, totalDeaths := some 1,
    totalRecovered := some 0, totalTests := some 0 }

/-- A snapshot row with 5 total cases. -/
def wFive : WRecord :=
  { country := "M", continent := "A", totalCases := some 5, totalDeaths := some 1,
    totalRecovered := some 0, totalTests := some 0 }

/-- A snapshot row with 3 total cases. -/
def wThree : WRecord :=
  { country := "K", continent := "A", totalCases := some 3, totalDeaths := some 1,
    totalRecovered := some 0, totalTests := some 0 }

/-- A snapshot row with 0 total cases and 0 deaths (its CFR is 0/0). -/
def wZeroZero : WRecord :=
  { country := "Z", continent := "A", totalCases := some 0, totalDeaths := some 0,
    totalRecovered := some 0, totalTests := some 0 }

/-- A snapshot row with 0 total cases, 5 deaths and 2 recovered (its CFR
is 5/0, its recovery rate 2/0). -/
def wZeroPos : WRecord :=
  { country := "X", continent := "A", totalCases := some 0, totalDeaths := some 5,
    totalRecovered := some 2, totalTests := some 0 }

lemma mem_addCol (t : WTable) (name a : String) :
    a ∈ (addCol t name).extraCols ↔ a ∈ t.extraCols ∨ a = name := by
  unfold addCol
  by_cases h : name ∈ t.extraCols
  · simp only [if_pos h]
    constructor
    · exact Or.inl
    · rintro (ha | rfl)
      · exact ha
      · exact h
  · simp [if_neg h, List.mem_append]

lemma mem_sortedKeys {α : Type} [LinearOrder α] {l : List α} {k : α} :
    k ∈ sortedKeys l ↔ k ∈ l := by
  unfold sortedKeys
  rw [(List.perm_insertionSort _ _).mem_iff]
  exact List.mem_dedup

lemma nodup_sortedKeys {α : Type} [LinearOrder α] (l : List α) :
    (sortedKeys l).Nodup :=
  ((List.perm_insertionSort _ _).nodup_iff).mpr l.nodup_dedup

lemma pairwise_lt_sortedKeys {α : Type} [LinearOrder α] (l : List α) :
    List.Pairwise (· < ·) (sortedKeys l) := by
  have hs : List.Sorted (· ≤ ·) (sortedKeys l) := List.sorted_insertionSort _ _
  exact hs.lt_of_le (nodup_sortedKeys l)

lemma pandasMean_nan_cons (l : List PF) :
    pandasMean (PF.nan :: l) = pandasMean l := by
  unfold pandasMean
  have h : (PF.nan :: l).filter (fun x => x ≠ PF.nan) = l.filter (fun x => x ≠ PF.nan) := by
    simp [List.filter_cons]
  rw [h]

lemma pandasMean_inf_of_mem {l : List PF} (hinf : PF.inf ∈ l) (hninf : PF.ninf ∉ l) :
    pandasMean l = PF.inf := by
  unfold pandasMean pandasMeanAux
  have hv : PF.inf ∈ l.filter (fun x => x ≠ PF.nan) := by
    simp [List.mem_filter, hinf]
  have hv' : PF.ninf ∉ l.filter (fun x => x ≠ PF.nan) := by
    intro hmem
    exact hninf (List.mem_of_mem_filter hmem)
  rw [if_neg (List.ne_nil_of_mem hv), if_neg (fun hc => hv' hc.2), if_pos hv]

/-- C1 counterexample: on the exact example rows of the claim
(continent A, one row with 0 cases and 5 deaths, one row with 100 cases
and 10 deaths), the per-continent mean CFR computed by line 109 is
+infinity — the 5/0 row is not excluded — and in particular it is not
the claimed 10.0. -/
theorem continent_cfr_example_counterexample :
    continent_cfr exContinentA = [("A", PF.inf)] ∧
    continent_cfr exContinentA ≠ [("A", PF.fin 10)] := by
  decide

/-- C1 (amended): the continent mean excludes exactly the NaN ratios: a
row with total_cases = 0 and total_deaths = 0 has CFR NaN, and NaN
entries are dropped from the pandas mean; but a row with total_cases = 0
and a positive numerator yields +infinity, which is included, so on the
example rows of the claim the mean CFR for A is +infinity rather than
10.0. -/
theorem continent_cfr_excludes_only_nan (r : WRecord) (l : List PF)
    (hc : r.totalCases = some 0) (hd : r.totalDeaths = some 0) :
    cfr r = PF.nan ∧
    pandasMean (PF.nan :: l) = pandasMean l ∧
    continent_cfr exContinentA = [("A", PF.inf)] := by
  refine ⟨?_, pandasMean_nan_cons l, by decide⟩
  simp [cfr, pandasDiv, hc, hd, pfScale100]

/-- C1 witness: the amended theorem applied to a concrete zero/zero row
and a concrete mean. -/
theorem continent_cfr_excludes_only_nan_witness :
    cfr wZeroZero = PF.nan ∧
    pandasMean [PF.nan, PF.fin 3] = pandasMean [PF.fin 3] ∧
    continent_cfr exContinentA = [("A", PF.inf)] :=
  continent_cfr_excludes_only_nan wZeroZero [PF.fin 3] rfl rfl

/-- C2 counterexample: the division of line 108 is not guarded — for a
row with total_cases = 0 and total_deaths = 5 it produces +infinity, and
that +infinity propagates into a downstream mean. -/
theorem cfr_unguarded_counterexample :
    cfr wZeroPos = PF.inf ∧
    pandasMean [cfr wZeroPos, PF.fin 10] = PF.inf := by
  decide

/-- C2 (amended): for a row with total_cases = 0 the ratio columns are
non-finite, not undefined: with a positive numerator both CFR and the
recovery rate are +infinity, and a +infinity entry (in the absence of
-infinity) propagates into the pandas mean of any column containing
it. -/
theorem ratio_zero_cases_unguarded (r : WRecord) (d e : Int) (l : List PF)
    (hc : r.totalCases = some 0) (hd : r.totalDeaths = some d) (hdpos : 0 < d)
    (he : r.totalRecovered = some e) (hepos : 0 < e) :
    cfr r = PF.inf ∧ recoveryRate r = PF.inf ∧
    (PF.inf ∈ l → PF.ninf ∉ l → pandasMean l = PF.inf) := by
  have hd0 : d ≠ 0 := by omega
  have he0 : e ≠ 0 := by omega
  refine ⟨?_, ?_, fun h1 h2 => pandasMean_inf_of_mem h1 h2⟩
  · simp [cfr, pandasDiv, hc, hd, pfScale100, hd0, hdpos]
  · simp [recoveryRate, pandasDiv, hc, he, pfScale100, he0, hepos]

/-- C2 witness: the amended theorem applied to a concrete zero-cases row
and the singleton +infinity column. -/
theorem ratio_zero_cases_unguarded_witness :
    cfr wZeroPos = PF.inf ∧ recoveryRate wZeroPos = PF.inf ∧
    pandasMean [PF.inf] = PF.inf := by
  have h := ratio_zero_cases_unguarded wZeroPos 5 2 [PF.inf]
    rfl rfl (by decide) rfl (by decide)
  exact ⟨h.1, h.2.1, h.2.2 (by decide) (by decide)⟩

/-- C3: the cleaning described on the Data Cleaning page is never
executed — the loaded snapshot table reaches the EDA aggregations
unchanged, so a row with a negative TotalCases and a missing TotalDeaths
flows straight into `nlargest` (line 92) and is even returned by it. -/
theorem uncleaned_rows_reach_aggregation :
    (load_data [] [badRow]).worldometer_data.rows = [badRow] ∧
    top_confirmed (load_data [] [badRow]) = [badRow] ∧
    badRow.totalCases = some (-7) ∧ badRow.totalDeaths = none := by
  decide

/-- C4 counterexample: the view name "UnknownView" matches no branch of
the chain of lines 30-233 and silently yields no payload; the code has no
UnknownView error path, unlike the spec-modelled `renderableForSpec`. -/
theorem pageDispatch_unknownView_counterexample :
    pageDispatch "UnknownView" = none ∧
    renderableForSpec "UnknownView" = Except.error "UnknownView" := by
  constructor
  · decide
  · rfl

/-- C4 (amended): for every view name outside the five supported radio
labels, the page dispatch of lines 30-233 executes no branch and silently
renders nothing (`none`); no UnknownView error is raised. -/
theorem pageDispatch_unknown_none (s : String)
    (h1 : s ≠ "📊 Data Overview") (h2 : s ≠ "🧹 Data Cleaning")
    (h3 : s ≠ "📈 EDA & Charts") (h4 : s ≠ "❓ Business Insights")
    (h5 : s ≠ "✅ Recommendations") :
    pageDispatch s = none := by
  simp [pageDispatch, h1, h2, h3, h4, h5]

/-- C4 witness: the amended theorem applied to the concrete unknown name
of the spec example. -/
theorem pageDispatch_unknown_none_witness :
    pageDispatch "UnknownView" = none :=
  pageDispatch_unknown_none "UnknownView" (by decide) (by decide) (by decide)
    (by decide) (by decide)

/-- C7 counterexample: rendering the EDA view mutates the loaded
snapshot table in place — on a freshly loaded state the table afterwards
differs from the table the loader produced. -/
theorem eda_mutation_counterexample :
    edaTransform (load_data [] []) ≠ load_data [] [] := by
  decide

/-- C7 (amended): the EDA branch writes the derived columns CFR(%),
log_TotalTests, log_TotalCases and RecoveryRate(%) onto the loaded
snapshot table in place (and re-assigns TotalTests, TotalCases and the
time-series Date column), so any state not already carrying the CFR(%)
column is changed by rendering the view: the loaded tables are not
read-only. -/
theorem edaTransform_mutates (s : AppState)
    (h : "CFR(%)" ∉ s.worldometer_data.extraCols) :
    edaTransform s ≠ s := by
  intro he
  have hm : "CFR(%)" ∈ (edaTransform s).worldometer_data.extraCols := by
    simp only [edaTransform]
    rw [mem_addCol, mem_addCol, mem_addCol, mem_addCol]
    tauto
  rw [he] at hm
  exact h hm

/-- C7 witness: the amended theorem applied to a freshly loaded one-row
state. -/
theorem edaTransform_mutates_witness :
    edaTransform (load_data [] [wFive]) ≠ load_data [] [wFive] :=
  edaTransform_mutates (load_data [] [wFive]) (by decide)

/-- C9: every aggregation of the EDA page — the monthly groupby-sum, the
nlargest ranking, the per-continent mean (both before and after its
descending sort, for either ratio column), the daily groupby-sum and the
log-transformed column — returns an empty result on an empty input
table, not an error. -/
theorem aggregations_empty (f : WRecord → Option Int) (n : Nat) (g : WRecord → PF) :
    monthly [] = [] ∧ nlargest [] f n = [] ∧ continentMean [] g = [] ∧
    continent_cfr [] = [] ∧ continent_recovery [] = [] ∧
    global_time [] = [] ∧ log_column [] = [] := by
  refine ⟨rfl, ?_, rfl, rfl, rfl, rfl, rfl⟩
  simp [nlargest, rankedRows]

/-- C8: the log transform of lines 142-143 maps a value v to
log10(v + 1) and is monotone non-decreasing on the domain v ≥ 0, both as
a scalar map and column-wise: a column that is sorted non-decreasing
stays sorted non-decreasing after the transform. -/
theorem log1p10_monotone (v1 v2 : ℝ) (vs : List ℝ) (h0 : 0 ≤ v1) (h12 : v1 ≤ v2)
    (hvs : ∀ v ∈ vs, 0 ≤ v) (hsorted : List.Pairwise (· ≤ ·) vs) :
    log1p10 v1 ≤ log1p10 v2 ∧ List.Pairwise (· ≤ ·) (log_column vs) := by
  have mono : ∀ a b : ℝ, 0 ≤ a → a ≤ b → log1p10 a ≤ log1p10 b := by
    intro a b ha hab
    unfold log1p10
    exact Real.logb_le_logb_of_le (by norm_num) (by linarith) (by linarith)
  refine ⟨mono v1 v2 h0 h12, ?_⟩
  unfold log_column
  rw [List.pairwise_map]
  exact hsorted.imp_of_mem (fun ha hb hab => mono _ _ (hvs _ ha) hab)

/-- C8 witness: the monotonicity theorem applied to the concrete values
0 and 1 and the concrete column [0, 1]. -/
theorem log1p10_monotone_witness :
    log1p10 0 ≤ log1p10 1 ∧ List.Pairwise (· ≤ ·) (log_column [0, 1]) := by
  refine log1p10_monotone 0 1 [0, 1] le_rfl (by norm_num) ?_ ?_
  · intro v hv
    rcases List.mem_cons.mp hv with h | h
    · rw [h]
    · rw [List.mem_singleton.mp h]
      norm_num
  · refine List.pairwise_cons.mpr ⟨?_, List.pairwise_singleton _ _⟩
    intro b hb
    rw [List.mem_singleton.mp hb]
    norm_num

lemma length_filter_enumFrom (f : WRecord → Option Int) (t : List WRecord) :
    ∀ i : Nat, ((List.enumFrom i t).filter (fun p => (f p.2).isSome)).length
      = (t.filter (fun r => (f r).isSome)).length := by
  induction t with
  | nil => intro i; rfl
  | cons r t ih =>
      intro i
      simp only [List.enumFrom, List.filter_cons]
      by_cases h : (f r).isSome
      · simp [h, ih]
      · simp [h, ih]

/-- C6 counterexample: `nlargest` drops rows whose field cell is missing,
so on a two-row table whose first row has a missing TotalCases it returns
a single row for n = 2 even though the table has 2 ≥ n rows —
contradicting "fewer than n rows are returned only if the table has fewer
than n rows". -/
theorem nlargest_missing_counterexample :
    nlargest [wMissing, wFive] (fun r => r.totalCases) 2 = [wFive] ∧
    (nlargest [wMissing, wFive] (fun r => r.totalCases) 2).length = 1 ∧
    ([wMissing, wFive] : List WRecord).length = 2 := by
  decide

/-- C6 (amended): `nlargest(t, field, n)` ranks only the rows whose field
cell is present (pandas drops NaN rows): it returns
min(n, number of non-missing rows) rows; the ranked rows are pairwise
ordered by strictly descending field value with ties kept in original row
order; every returned row's field value is ≥ that of every ranked row not
returned; and the ranked rows are a permutation of the index-decorated
non-missing rows of the table. -/
theorem nlargest_spec (t : List WRecord) (f : WRecord → Option Int) (n : Nat) :
    (nlargest t f n).length = min n (t.filter (fun r => (f r).isSome)).length ∧
    List.Pairwise (keyLe f) (rankedRows t f) ∧
    (∀ p ∈ (rankedRows t f).take n, ∀ q ∈ (rankedRows t f).drop n, fval f q ≤ fval f p) ∧
    List.Perm (rankedRows t f) (t.enum.filter (fun p => (f p.2).isSome)) := by
  have hperm : List.Perm (rankedRows t f) (t.enum.filter (fun p => (f p.2).isSome)) :=
    List.perm_insertionSort _ _
  have hsorted : List.Pairwise (keyLe f) (rankedRows t f) :=
    List.sorted_insertionSort _ _
  refine ⟨?_, hsorted, ?_, hperm⟩
  · have h1 : (rankedRows t f).length = (t.filter (fun r => (f r).isSome)).length := by
      rw [hperm.length_eq]
      exact length_filter_enumFrom _ t 0
    simp [nlargest, List.length_take, h1]
  · intro p hp q hq
    have hsplit := hsorted
    rw [← List.take_append_drop n (rankedRows t f)] at hsplit
    have hpq : keyLe f p q := (List.pairwise_append.mp hsplit).2.2 p hp q hq
    rcases hpq with h | h
    · exact le_of_lt h
    · exact le_of_eq h.1.symm

/-- C6 witness: the amended theorem applied to the concrete two-row table
[wThree, wFive] with n = 1 — the dominance conjunct gives 3 ≤ 5 between
the dropped row and the returned row. -/
theorem nlargest_spec_witness :
    fval (fun r => r.totalCases) (0, wThree) ≤ fval (fun r => r.totalCases) (1, wFive) :=
  (nlargest_spec [wThree, wFive] (fun r => r.totalCases) 1).2.2.1
    (1, wFive) (by decide) (0, wThree) (by decide)

lemma nansum_cons (x : Option Int) (l : List (Option Int)) :
    nansum (x :: l) = x.getD 0 + nansum l := by
  simp [nansum]

lemma sum_filter_split (p : TSRecord → Bool) (g : TSRecord → Option Int)
    (t : List TSRecord) :
    nansum ((t.filter p).map g) + nansum ((t.filter (fun r => !(p r))).map g)
      = nansum (t.map g) := by
  induction t with
  | nil => rfl
  | cons r t ih =>
      by_cases h : p r
      · simp only [List.filter_cons, h, Bool.not_true, Bool.false_eq_true, if_true,
          if_false, List.map_cons, nansum_cons]
        omega
      · have h' : p r = false := by simp [h]
        simp only [List.filter_cons, h', Bool.not_false, Bool.false_eq_true, if_true,
          if_false, List.map_cons, nansum_cons]
        omega

lemma nansum_groups (g : TSRecord → Option Int) (key : TSRecord → Nat) :
    ∀ (ks : List Nat) (t : List TSRecord), ks.Nodup → (∀ r ∈ t, key r ∈ ks) →
      (ks.map (fun k => nansum ((t.filter (fun r => key r = k)).map g))).sum
        = nansum (t.map g) := by
  intro ks
  induction ks with
  | nil =>
      intro t _ hcov
      have ht : t = [] := by
        cases t with
        | nil => rfl
        | cons r t => exact absurd (hcov r (List.mem_cons_self r t)) (List.not_mem_nil _)
      rw [ht]
      rfl
  | cons k ks ih =>
      intro t hnd hcov
      rw [List.map_cons, List.sum_cons]
      have hcov' : ∀ r ∈ t.filter (fun r => !(key r = k)), key r ∈ ks := by
        intro r hr
        have h1 := List.of_mem_filter hr
        have h2 := List.mem_of_mem_filter hr
        rcases List.mem_cons.mp (hcov r h2) with he | hin
        · rw [he] at h1
          simp at h1
        · exact hin
      have hmap : (ks.map (fun q => nansum ((t.filter (fun r => key r = q)).map g))).sum
          = (ks.map (fun q =>
              nansum (((t.filter (fun r => !(key r = k))).filter
                (fun r => key r = q)).map g))).sum := by
        apply congrArg
        apply List.map_congr_left
        intro q hq
        have hkk : q ≠ k := by
          intro he
          exact (List.nodup_cons.mp hnd).1 (he ▸ hq)
        have hfil : t.filter (fun r => key r = q)
            = (t.filter (fun r => !(key r = k))).filter (fun r => key r = q) := by
          rw [List.filter_filter]
          apply List.filter_congr
          intro r _
          by_cases h : key r = q
          · simp [h, hkk]
          · simp [h]
        rw [hfil]
      rw [hmap, ih _ (List.nodup_cons.mp hnd).2 hcov']
      exact sum_filter_split (fun r => key r = k) g t

/-- C5: the monthly aggregation of line 74 groups all records by the
(year, month) period of their date and sums across all countries: its
keys are strictly ascending (hence no duplicate months); a month ordinal
appears exactly when some record of the table falls in that month; the
group sums together account for every record (their total equals the
column total); and on the §8 example of three countries each contributing
confirmed = 100 in January 2020 it yields exactly the single row
(ordinal of 2020-01, 300, 0, 0). -/
theorem monthly_sorted_grouped (t : List TSRecord) :
    List.Pairwise (· < ·) ((monthly t).map Prod.fst) ∧
    (∀ k, k ∈ (monthly t).map Prod.fst ↔ ∃ r ∈ t, periodM r = k) ∧
    ((monthly t).map (fun e => e.2.1)).sum = nansum (t.map (fun r => r.confirmed)) ∧
    monthly exJan2020 = [(24240, 300, 0, 0)] := by
  have hfst : (monthly t).map Prod.fst = sortedKeys (t.map periodM) := by
    unfold monthly
    rw [List.map_map]
    exact List.map_id _
  refine ⟨?_, ?_, ?_, by decide⟩
  · rw [hfst]
    exact pairwise_lt_sortedKeys _
  · intro k
    rw [hfst, mem_sortedKeys]
    exact List.mem_map
  · have hsum : ((monthly t).map (fun e => e.2.1))
        = (sortedKeys (t.map periodM)).map (fun k =>
            nansum ((t.filter (fun r => periodM r = k)).map (fun r => r.confirmed))) := by
      unfold monthly
      rw [List.map_map]
      rfl
    rw [hsum]
    exact nansum_groups _ _ _ _ (nodup_sortedKeys _)
      (fun r hr => mem_sortedKeys.mpr (List.mem_map_of_mem _ hr))

lemma filter_map_fillZero (p : TSRecord → Bool) (hp : ∀ r, p (fillZero r) = p r)
    (t : List TSRecord) :
    (t.map fillZero).filter p = (t.filter p).map fillZero := by
  rw [List.filter_map]
  congr 1
  apply List.filter_congr
  intro r _
  exact hp r

lemma nansum_map_fill (sel : TSRecord → Option Int)
    (hsel : ∀ r, (sel (fillZero r)).getD 0 = (sel r).getD 0) (l : List TSRecord) :
    nansum ((l.map fillZero).map sel) = nansum (l.map sel) := by
  unfold nansum
  rw [List.map_map, List.map_map, List.map_map]
  apply congrArg
  apply List.map_congr_left
  intro r _
  exact hsel r

/-- C10: in the grouped sums of lines 74 and 175, a missing cell of a
summed column contributes 0 to the sum of its group: replacing every
missing confirmed / deaths / recovered / new-cases / new-deaths cell by 0
(the zero-fill cleaning step) changes neither the monthly aggregation nor
the daily aggregation, so every group sum is a defined number whether or
not the zero-fill has been applied. -/
theorem groupby_sums_fill_invariant (t : List TSRecord) :
    monthly (t.map fillZero) = monthly t ∧
    global_time (t.map fillZero) = global_time t := by
  constructor
  · unfold monthly
    have hk : (t.map fillZero).map periodM = t.map periodM := by
      rw [List.map_map]
      exact List.map_congr_left (fun r _ => rfl)
    rw [hk]
    apply List.map_congr_left
    intro k hk'
    rw [filter_map_fillZero (fun r => periodM r = k) (fun r => rfl) t]
    simp only [Prod.mk.injEq]
    refine ⟨trivial, ?_, ?_, ?_⟩
    · exact nansum_map_fill (fun r => r.confirmed) (fun r => rfl) _
    · exact nansum_map_fill (fun r => r.deaths) (fun r => rfl) _
    · exact nansum_map_fill (fun r => r.recovered) (fun r => rfl) _
  · unfold global_time
    have hk : (t.map fillZero).map dateKey = t.map dateKey := by
      rw [List.map_map]
      exact List.map_congr_left (fun r _ => rfl)
    rw [hk]
    apply List.map_congr_left
    intro k hk'
    rw [filter_map_fillZero (fun r => dateKey r = k) (fun r => rfl) t]
    simp only [Prod.mk.injEq]
    refine ⟨trivial, ?_, ?_⟩
    · exact nansum_map_fill (fun r => r.newCases) (fun r => rfl) _
    · exact nansum_map_fill (fun r => r.newDeaths) (fun r => rfl) _
